import Mathlib

/-!
Verification of the stock_picker report-generation and filtering engine
(`src/stock_picker/picker.py`) against its natural-language specification.

Modelling conventions (shallow embedding):
* Python floats are modelled exactly by rationals `ℚ`.  The only places where a
  genuinely irrational float can arise in the source are `np.std` and
  `np.corrcoef` (square roots).  Such values are represented exactly by the
  symbolic constructor `PyVal.rt s d`, denoting the real number `s / √d`
  (with `d > 0`, `s ≠ 0`); order comparisons against such values are decided
  by exact rational arithmetic on signs and squares (`ltRt`, `leRt`).
* Python `None` is `PyVal.none`, the IEEE float `nan` is `PyVal.nan`, strings
  are `PyVal.str`.
* Python dictionaries that the source treats as ordered string-keyed records
  (`OrderedDict` reports, statement data) are association lists
  `List (String × _)`; assignment to an existing key overwrites in place
  (`assocSet`), as Python dict assignment preserves key order.
* Fallible Python code (statements that can raise) is embedded in
  `Except String`.
-/

/-- A Python runtime value as it occurs in the picker's reports and data:
`None`, an exact (rational) float, a symbolic irrational float `s / √d`
produced by `np.std` / `np.corrcoef`, the float `nan`, or a string. -/
inductive PyVal where
  | none : PyVal
  | num (q : ℚ) : PyVal
  | rt (s d : ℚ) : PyVal
  | nan : PyVal
  | str (s : String) : PyVal
deriving DecidableEq, Repr

/-- The numeric value of a `PyVal` as a pair `(s, d)` meaning `s / √d` with
`d > 0`; `Option.none` for `None`, `nan` and strings (comparisons against
those are `False` in the source's uses). -/
def PyVal.toRtRep : PyVal → Option (ℚ × ℚ)
  | .num q => some (q, 1)
  | .rt s d => some (s, d)
  | _ => Option.none

/-- Decides `s1 / √d1 < s2 / √d2` for `d1, d2 > 0` by exact rational
arithmetic (sign analysis, then comparison of squares). -/
def ltRt (s1 d1 s2 d2 : ℚ) : Bool :=
  if s1 < 0 then (if 0 ≤ s2 then true else decide (s2 * s2 * d1 < s1 * s1 * d2))
  else if s1 = 0 then decide (0 < s2)
  else decide (0 < s2 ∧ s1 * s1 * d2 < s2 * s2 * d1)

/-- Decides `s1 / √d1 ≤ s2 / √d2` for `d1, d2 > 0`. -/
def leRt (s1 d1 s2 d2 : ℚ) : Bool :=
  if s1 < 0 then (if 0 ≤ s2 then true else decide (s2 * s2 * d1 ≤ s1 * s1 * d2))
  else if s1 = 0 then decide (0 ≤ s2)
  else decide (0 < s2 ∧ s1 * s1 * d2 ≤ s2 * s2 * d1)

/-- Python `<` on two float values (IEEE semantics: any comparison involving
`nan` is false).  Non-numeric operands never reach a raw `<` in the embedded
flows except where explicitly modelled as raising. -/
def pyLtVal (a b : PyVal) : Bool :=
  match a.toRtRep, b.toRtRep with
  | some (s1, d1), some (s2, d2) => ltRt s1 d1 s2 d2
  | _, _ => false

/-- Python `<=` on two float values (IEEE semantics for `nan`). -/
def pyLeVal (a b : PyVal) : Bool :=
  match a.toRtRep, b.toRtRep with
  | some (s1, d1), some (s2, d2) => leRt s1 d1 s2 d2
  | _, _ => false

/-- Model of `np.isnan` on the values it is applied to without raising. -/
def PyVal.isnan : PyVal → Bool
  | .nan => true
  | _ => false

/-- Python truthiness of a value (`if val:`): `None`, `0`, `0.0` and the empty
string are falsy; `nan` is truthy. -/
def PyVal.truthy : PyVal → Bool
  | .none => false
  | .num q => decide (q ≠ 0)
  | .rt _ _ => true
  | .nan => true
  | .str s => decide (s ≠ "")

/-- Source `div` (picker.py lines 20-25): null-propagating safe division.
Returns `None` when an operand is `None`, the divisor is `0`, or both
operands are negative; otherwise the quotient.  `nan` operands fall through
the guards (`nan == 0` and `nan < 0` are false) and propagate as `nan`. -/
def div (item1 item2 : PyVal) : PyVal :=
  if item1 = .none ∨ item2 = .none then .none
  else
    match item1, item2 with
    | .num a, .num b => if b = 0 ∨ (a < 0 ∧ b < 0) then .none else .num (a / b)
    | .nan, .num b => if b = 0 then .none else .nan
    | .num _, .nan => .nan
    | .nan, .nan => .nan
    -- symbolic irrational operands never reach `div` in any source flow
    -- (only period averages and raw series values, all rational, are divided)
    | _, _ => .nan

/-- Source `sub` (lines 28-32): `item1 - item2`, with any `TypeError`
(a `None` operand) caught and turned into `None`. -/
def sub (item1 item2 : PyVal) : PyVal :=
  match item1, item2 with
  | .num a, .num b => .num (a - b)
  | .nan, .num _ => .nan
  | .num _, .nan => .nan
  | .nan, .nan => .nan
  | _, _ => .none

/-- Source `add` (lines 35-39): `item1 + item2` with `TypeError` caught
(note Python `+` concatenates two strings; the function is never applied to
strings in the source). -/
def add (item1 item2 : PyVal) : PyVal :=
  match item1, item2 with
  | .num a, .num b => .num (a + b)
  | .nan, .num _ => .nan
  | .num _, .nan => .nan
  | .nan, .nan => .nan
  | .str a, .str b => .str (a ++ b)
  | _, _ => .none

/-- Source `reverse_sign` (lines 42-46): null-preserving negation. -/
def reverse_sign (number : PyVal) : PyVal :=
  match number with
  | .none => .none
  | .num q => .num (-q)
  | .nan => .nan
  | .rt s d => .rt (-s) d
  | .str s => .str s   -- unreached: applied only to floats and None

/-- Source `change_rate` (lines 60-66): `None` when the base is `0`,
otherwise `(item1 - item2) / item2`, with `TypeError` (a `None` operand)
caught and turned into `None`. -/
def change_rate (item1 item2 : PyVal) : PyVal :=
  if item2 = .num 0 then .none
  else
    match item1, item2 with
    | .num a, .num b => .num ((a - b) / b)
    | .nan, .num _ => .nan
    | .num _, .nan => .nan
    | .nan, .nan => .nan
    -- symbolic irrational operands never reach `change_rate` in the source
    | _, _ => .none

/-- Source `check_lt` (lines 69-72): true only when both operands are
non-null, the first is not `nan`, and the comparison holds. -/
def check_lt (num1 num2 : PyVal) : Bool :=
  num1 ≠ .none && !num1.isnan && num2 ≠ .none && pyLtVal num1 num2

/-- Source `check_lte` (lines 75-78). -/
def check_lte (num1 num2 : PyVal) : Bool :=
  num1 ≠ .none && !num1.isnan && num2 ≠ .none && pyLeVal num1 num2

/-- Modelled from the spec (§4.1 and §8): the claimed behaviour of
`safe_div`, written from the specification's words, to be compared with the
source's `div`.  Null iff an operand is null, the divisor is zero, or both
operands are negative; otherwise the quotient. -/
def safe_div_spec (a b : Option ℚ) : Option ℚ :=
  match a, b with
  | some x, some y => if y = 0 ∨ (x < 0 ∧ y < 0) then Option.none else some (x / y)
  | _, _ => Option.none

/-- Coercion of a JSON-style nullable rational into the Python value domain. -/
def toPyVal : Option ℚ → PyVal
  | Option.none => .none
  | some q => .num q

/-- Arithmetic mean of a rational list (`np.average` on a nonempty array). -/
def listMean (xs : List ℚ) : ℚ := xs.sum / xs.length

/-- Population variance, `np.std(xs) ** 2` (mean of squared deviations). -/
def listVariance (xs : List ℚ) : ℚ :=
  ((xs.map (fun x => (x - listMean xs) ^ 2)).sum) / xs.length

/-- The exact rational square root of `v`, when it exists (`v` in lowest
terms has a perfect-square numerator and denominator). -/
def ratSqrtExact (v : ℚ) : Option ℚ :=
  if v < 0 then Option.none
  else
    let a := Nat.sqrt v.num.toNat
    let b := Nat.sqrt v.den
    if a * a = v.num.toNat ∧ b * b = v.den then some ((a : ℚ) / (b : ℚ)) else Option.none

/-- The float `√v` (for `v ≥ 0`) as a `PyVal`: exact rational when possible,
otherwise the symbolic form `v / √v`. -/
def sqrtF (v : ℚ) : PyVal :=
  if v = 0 then .num 0
  else
    match ratSqrtExact v with
    | some r => .num r
    | Option.none => .rt v v

/-- Model of `np.average` as used in the source: `nan` on an empty array
(numpy emits a RuntimeWarning and returns `nan`, it does not raise). -/
def np_average (xs : List ℚ) : PyVal :=
  if xs = [] then .nan else .num (listMean xs)

/-- Model of `np.std` (population standard deviation): `nan` on an empty
array, otherwise `√variance`, represented exactly. -/
def np_std (xs : List ℚ) : PyVal :=
  if xs = [] then .nan else sqrtF (listVariance xs)

/-- The filter `[item for item in array if item is not None and not
np.isnan(item)]` shared by `apply_f_excl_none` and `coef_var`, landing in
`ℚ`.  On a string item the source raises `TypeError` inside `np.isnan`; the
two group-report builders (the only callers whose input can hold strings)
test for strings before calling this, reproducing their `try/except`.
Symbolic `rt` values never occur in any list the source reduces. -/
def pyExclNoneNan (array : List PyVal) : List ℚ :=
  array.filterMap (fun v => match v with | .num q => some q | _ => Option.none)

/-- Source `apply_f_excl_none` (lines 12-17): drop nulls and `nan`s, return
`None` if nothing remains, otherwise apply the reducer. -/
def apply_f_excl_none (func : List ℚ → PyVal) (array : List PyVal) : PyVal :=
  let array_excl_none := pyExclNoneNan array
  if array_excl_none = [] then .none else func array_excl_none

/-- Raw Python float division as used in `coef_var`'s final
`np.std(...) / avg` (no null guards; `nan` propagates).  Division of or by a
symbolic root is rewritten exactly: `(s/√d)/y = (s/y)/√d` and
`x/(s/√d) = (x·d/s)/√d`.  A zero rational divisor is unreached there
(guarded by `avg == 0`). -/
def pyDivRaw (a b : PyVal) : PyVal :=
  match a, b with
  | .nan, _ => .nan
  | _, .nan => .nan
  | .num x, .num y => if y = 0 then .nan else .num (x / y)
  | .rt s d, .num y => if y = 0 then .nan else .rt (s / y) d
  | .num x, .rt s d => if s = 0 then .nan else .rt (x * d / s) d
  | _, _ => .nan

/-- Source `coef_var` (lines 49-57): drops nulls and `nan`s, computes the
average (nan on an empty remainder — numpy warns, it does not raise),
returns `None` when that average is exactly `0` (note `nan == 0` is false),
otherwise the standard deviation divided by the average.  The source's
`try/except` around the division is unreached for float inputs. -/
def coef_var (arr : List PyVal) : PyVal :=
  let array_excl_none := pyExclNoneNan arr
  let avg := np_average array_excl_none
  if avg = .num 0 then .none
  else pyDivRaw (np_std array_excl_none) avg

/-- The centered sums `(Sxy, Sxx, Syy)` underlying `np.corrcoef`: the
Pearson coefficient is `Sxy / √(Sxx·Syy)`. -/
def pearsonSums (xs ys : List ℚ) : ℚ × ℚ × ℚ :=
  let mx := listMean xs
  let my := listMean ys
  (((xs.zip ys).map (fun p => (p.1 - mx) * (p.2 - my))).sum,
   (xs.map (fun x => (x - mx) ^ 2)).sum,
   (ys.map (fun y => (y - my) ^ 2)).sum)

/-- `np.corrcoef(xs, ys)[0, 1]`, exactly: `nan` when a series is constant
(`0/0`), the exact rational when `√(Sxx·Syy)` is rational, otherwise the
symbolic value `Sxy / √(Sxx·Syy)`. -/
def corrcoefVal (xs ys : List ℚ) : PyVal :=
  let s := pearsonSums xs ys
  let den := s.2.1 * s.2.2
  if den = 0 then .nan
  else if s.1 = 0 then .num 0
  else
    match ratSqrtExact den with
    | some r => .num (s.1 / r)
    | Option.none => .rt s.1 den

/-- Source `flipped_linear_corrcoef` (lines 81-86): drop `None`s (only —
`nan`s are kept and poison the correlation), require at least
`n_data_points` values, reverse the most recent `n_data_points` to
chronological order and correlate them with `0..n-1`. -/
def flipped_linear_corrcoef (arr : List PyVal) (n_data_points : ℕ) : PyVal :=
  let arr_excl_none := arr.filter (fun v => v ≠ PyVal.none)
  if arr_excl_none.length < n_data_points then .none
  else
    let flipped_arr := (arr_excl_none.take n_data_points).reverse
    match flipped_arr.mapM (fun v => match v with | .num q => some q | _ => Option.none) with
    | some xs => corrcoefVal xs ((List.range flipped_arr.length).map (fun i => (i : ℚ)))
    | Option.none => .nan

/-- The reducers that appear in the picker's period schemas (`np.average`
only; `self.default_function = np.average`). -/
inductive Reducer where
  | average : Reducer
deriving DecidableEq, Repr

/-- `function.__name__`, used to build report field names. -/
def Reducer.pyName : Reducer → String
  | .average => "average"

def Reducer.run : Reducer → List ℚ → PyVal
  | .average => np_average

/-- One entry of `report_by_period_schema`: explicit periods and reducers. -/
structure FieldSpec where
  periods : List (ℕ × ℕ)
  functions : List Reducer
deriving DecidableEq, Repr

/-- A statement schema: ordered field names, each with an optional explicit
spec (`None` in the source dict means defaults apply). -/
abbrev Schema := List (String × Option FieldSpec)

/-- Raw statement data: ordered mapping from field name to its per-year
series (most recent first after ingestion); entries are numbers or nulls. -/
abbrev StmtData := List (String × List PyVal)

/-- `data[fld]`.  Python raises `KeyError` on a missing field; every
statement the claims evaluate carries all of its schema's fields, so the
default is never exercised in a theorem about the source's behaviour. -/
def seriesOf (data : StmtData) (fld : String) : List PyVal :=
  (data.lookup fld).getD []

/-- Python slice `s[a:b]` for `0 ≤ a ≤ b`. -/
def pySlice (s : List PyVal) (a b : ℕ) : List PyVal := (s.drop a).take (b - a)

def default_period : ℕ × ℕ := (0, 4)

def default_function : Reducer := .average

/-- Source `report_field_name` (lines 233-234). -/
def report_field_name (fld : String) (func : Reducer) (per : ℕ × ℕ) : String :=
  func.pyName ++ "_" ++ fld ++ "_prev_" ++ toString per.1 ++ "_" ++ toString per.2 ++ "_y"

/-- Source `create_report_by_period` (lines 232-247): walk the schema in
order; a field with no explicit spec gets one entry, the default reducer
over the default period `[0:4]`; an explicit spec gets one entry per
(period, function) pair. -/
def create_report_by_period (data : StmtData) (schema : Schema) : List (String × PyVal) :=
  schema.flatMap (fun e =>
    match e.2 with
    | Option.none =>
        [(report_field_name e.1 default_function default_period,
          apply_f_excl_none default_function.run
            (pySlice (seriesOf data e.1) default_period.1 default_period.2))]
    | some fs =>
        fs.periods.flatMap (fun per => fs.functions.map (fun func =>
          (report_field_name e.1 func per,
           apply_f_excl_none func.run (pySlice (seriesOf data e.1) per.1 per.2)))))

/-- The income-statement entry of `report_by_period_schema` (lines 100-117). -/
def income_statement_schema : Schema :=
  [("revenue", some ⟨[(0, 4), (5, 9)], [.average]⟩),
   ("gross_profit", Option.none),
   ("operating_income", Option.none),
   ("pre_tax_income", Option.none),
   ("net_income", Option.none),
   ("total_non_operating_income_expense", Option.none),
   ("research_and_development_expenses", Option.none),
   ("shares_outstanding", Option.none),
   ("operating_expenses", Option.none),
   ("eps_earnings_per_share", some ⟨[(0, 4), (5, 9), (10, 14)], [.average]⟩)]

/-- Assignment `d[k] = v` on an ordered string-keyed dict: overwrite in
place, else append. -/
def assocSet (k : String) (v : α) : List (String × α) → List (String × α)
  | [] => [(k, v)]
  | e :: rest => if e.1 = k then (k, v) :: rest else e :: assocSet k v rest

/-- `rep[k]` on a report known to contain `k` (lookup with a `None` default;
a genuinely missing key would raise `KeyError` in Python — the embedded
flows only look up keys they have built). -/
def getVal (rep : List (String × PyVal)) (k : String) : PyVal :=
  (rep.lookup k).getD .none

/-- A raw Python comparison `v < 0` as written at source lines 285 and 291:
raises `TypeError` when the value is `None` (the crash this development
exhibits), is false for `nan`. -/
def pyLtZero (v : PyVal) : Except String Bool :=
  match v with
  | .none => throw "TypeError: unsupported comparison of NoneType and int"
  | .num q => pure (decide (q < 0))
  | .rt s _ => pure (decide (s < 0))
  | .nan => pure false
  | .str _ => throw "TypeError: unsupported comparison of str and int"

/-- Raw unary minus (line 287): raises on `None`. -/
def pyNeg (v : PyVal) : Except String PyVal :=
  match v with
  | .num q => pure (.num (-q))
  | .rt s d => pure (.rt (-s) d)
  | .nan => pure .nan
  | .none => throw "TypeError: bad operand type for unary minus: NoneType"
  | .str _ => throw "TypeError: bad operand type for unary minus: str"

/-- `abs` as applied at line 299 (only reached under a guard that the value
is truthy, so never on `None`). -/
def pyAbs (v : PyVal) : PyVal :=
  match v with
  | .num q => .num |q|
  | .rt s d => .rt |s| d
  | .nan => .nan
  | w => w

/-- Source lines 282-287: the eps growth rate for windows 0-4 vs 5-9.  The
naive `change_rate` is negated exactly when the raw comparison
`avg_0_4 < 0` holds (this comparison raises `TypeError` when the 0-4
average is `None`) and the 5-9 average is truthy. -/
def eps_growth_0_4_vs_5_9 (avg_0_4 avg_5_9 : PyVal) : Except String PyVal := do
  let naive := change_rate avg_0_4 avg_5_9
  let neg ← pyLtZero avg_0_4
  if neg && avg_5_9.truthy then pyNeg naive else pure naive

/-- Source lines 288-293: the eps growth rate for windows 0-4 vs 10-14.
The guard re-evaluates `avg_0_4 < 0` (raising on `None` just as above), but
its body is the self-assignment `metrics_rep[k] = metrics_rep[k]`: the
value is never negated. -/
def eps_growth_0_4_vs_10_14 (avg_0_4 avg_5_9 avg_10_14 : PyVal) :
    Except String PyVal := do
  let naive := change_rate avg_0_4 avg_10_14
  let _neg ← pyLtZero avg_0_4
  -- `if _neg && avg_5_9.truthy` would reassign `naive` to itself: a no-op
  let _ := avg_5_9
  pure naive

/-- The comprehension `[div(v, data[rev][idx]) for idx, v in
enumerate(data[fld])]` (lines 263, 268, 273, 278).  An index beyond the
revenue series would raise `IndexError`; statements are ingested with
equal-length year-aligned series, under which the `None` default is never
taken. -/
def incomeMarginSeries (data : StmtData) (fld : String) : List PyVal :=
  (seriesOf data fld).enum.map
    (fun p => div p.2 ((seriesOf data "revenue").getD p.1 .none))

/-- Source `generate_income_statement_reports` (lines 249-305).  The period
report collects the schema aggregates and then the trend coefficients (the
source interleaves the trend-coefficient insertions with the metric
insertions; since the metric entries only read the schema aggregates, the
resulting dict contents and orders are identical).  The eps-growth entries
go through the raw comparison of lines 285/291, which raises `TypeError`
when the 0-4 eps window average is `None`. -/
def generate_income_statement_reports (i_s_data : StmtData) :
    Except String (List (String × PyVal) × List (String × PyVal)) := do
  let pr0 := create_report_by_period i_s_data income_statement_schema
  let period_rep := pr0 ++
    [("corr_coef_revenue_last_5y", flipped_linear_corrcoef (seriesOf i_s_data "revenue") 5),
     ("corr_coef_eps_last_5y",
       flipped_linear_corrcoef (seriesOf i_s_data "eps_earnings_per_share") 5),
     ("corr_coef_shares_outstanding_last_5y",
       flipped_linear_corrcoef (seriesOf i_s_data "shares_outstanding") 5),
     ("corr_coef_op_expenses_margin_last_5y",
       flipped_linear_corrcoef (incomeMarginSeries i_s_data "operating_expenses") 5),
     ("corr_coef_gross_profit_margin_last_5y",
       flipped_linear_corrcoef (incomeMarginSeries i_s_data "gross_profit") 5),
     ("corr_coef_net_income_margin_last_5y",
       flipped_linear_corrcoef (incomeMarginSeries i_s_data "net_income") 5),
     ("corr_coef_pre_tax_net_income_margin_last_5y",
       flipped_linear_corrcoef (incomeMarginSeries i_s_data "pre_tax_income") 5)]
  let avg_rev := getVal pr0 "average_revenue_prev_0_4_y"
  let avg_eps_0_4 := getVal pr0 "average_eps_earnings_per_share_prev_0_4_y"
  let avg_eps_5_9 := getVal pr0 "average_eps_earnings_per_share_prev_5_9_y"
  let avg_eps_10_14 := getVal pr0 "average_eps_earnings_per_share_prev_10_14_y"
  let g1 ← eps_growth_0_4_vs_5_9 avg_eps_0_4 avg_eps_5_9
  let g2 ← eps_growth_0_4_vs_10_14 avg_eps_0_4 avg_eps_5_9 avg_eps_10_14
  let non_op := getVal pr0 "average_total_non_operating_income_expense_prev_0_4_y"
  let metrics_rep :=
    [("average_op_expenses_margin_prev_0_4_y",
       div (getVal pr0 "average_operating_expenses_prev_0_4_y") avg_rev),
     ("average_gross_profit_margin_prev_0_4_y",
       div (getVal pr0 "average_gross_profit_prev_0_4_y") avg_rev),
     ("average_net_income_margin_prev_0_4_y",
       div (getVal pr0 "average_net_income_prev_0_4_y") avg_rev),
     ("average_pre_tax_net_income_margin_prev_0_4_y",
       div (getVal pr0 "average_pre_tax_income_prev_0_4_y") avg_rev),
     ("eps_growth_prev_0_4_vs_5_9_y", g1),
     ("eps_growth_prev_0_4_vs_10_14_y", g2),
     ("average_r_and_d_expenses_ratio_prev_0_4_y",
       div (getVal pr0 "average_research_and_development_expenses_prev_0_4_y")
           (getVal pr0 "average_operating_expenses_prev_0_4_y")),
     ("average_non_op_per_op_expense_prev_0_4_y",
       if non_op.truthy && pyLtVal non_op (.num 0)
       then div (pyAbs non_op) (getVal pr0 "average_net_income_prev_0_4_y")
       else .none)]
  pure (period_rep, metrics_rep)

/-- The trend fields scanned for downward warnings (lines 643-648). -/
def trend_down_fields : List String :=
  ["revenue", "eps", "current_assets_liabilities", "total_assets_liabilities",
   "solvency_ratio", "net_income_margin", "gross_profit_margin",
   "pre_tax_net_income_margin", "cash_flow_margin", "ROA", "ROE", "ROEC"]

/-- The trend fields scanned for upward warnings (line 651). -/
def trend_up_fields : List String :=
  ["op_expenses_margin", "shares_outstanding", "debt_issuance", "equity_issued"]

/-- Source `add_warnings_to_metrics_rep` (lines 634-655): collect a warning
for every listed trend coefficient at or below `-0.71` (downward list) or
at or above `0.71` (upward list), join them with `"; "` and store the
result under the `warnings` key of the metrics report. -/
def add_warnings_to_metrics_rep (period_reports metrics_report : List (String × PyVal)) :
    List (String × PyVal) :=
  let warnings :=
    (trend_down_fields.filter (fun fld =>
        check_lte (getVal period_reports ("corr_coef_" ++ fld ++ "_last_5y"))
          (.num (-(71 / 100))))).map
      (fun fld => "strong downward trend of " ++ fld ++ " in last 5yrs") ++
    (trend_up_fields.filter (fun fld =>
        check_lte (.num (71 / 100))
          (getVal period_reports ("corr_coef_" ++ fld ++ "_last_5y")))).map
      (fun fld => "strong upward trend of " ++ fld ++ " in last 5yrs")
  assocSet "warnings" (.str (String.intercalate "; " warnings)) metrics_report

/-- Default `market_cap` floor of `default_filter` (line 552). -/
def default_market_cap_floor : ℚ := 100

/-- Default `filtering_country` exclusion list (lines 553-557). -/
def default_filtering_country : List String :=
  ["argentina", "australia", "bermuda", "brazil", "chile", "china", "columbia",
   "hong_kong_sar_china", "india", "indonesia", "israel", "japan", "mexico",
   "russia", "south_africa", "hong_kong, _sar_china"]

/-- Default value of the source parameter `null_data_ratio` (line 561),
the float literal `0.8`. -/
def default_null_data_threshold : ℚ := 4 / 5

/-- A metrics value counted as missing by the data-quality gate (lines
591-592): `not val or (not isinstance(val, str) and np.isnan(val))` —
`None`, zero and the empty string are falsy, and `nan` (truthy) is caught
by the `isnan` disjunct; any other float or nonempty string counts as
present. -/
def isNullish (v : PyVal) : Bool :=
  match v with
  | .none => true
  | .num q => decide (q = 0)
  | .rt _ _ => false
  | .nan => true
  | .str s => decide (s = "")

/-- Source `default_filter` (lines 548-595), the hard eligibility filter.
The last parameter embeds the source's `null_data_ratio`.  The
`positive_cash_on_hand` branch (lines 576-578) logs
"filtered ...: Negative cash on hand" but is missing its `return False`:
the violation is computed and then discarded, which this embedding keeps as
the unused `_cash_violation`. -/
def default_filter (period_report metrics_report : List (String × PyVal))
    (market_cap : ℚ) (filtering_country : List String)
    (positive_avg_earning positive_cash_on_hand solid_liquidity : Bool)
    (null_data_threshold : ℚ) : Bool :=
  if pyLtVal (getVal metrics_report "market_cap") (.num market_cap) then false
  else if filtering_country ≠ [] &&
      (match getVal metrics_report "country" with
       | .str c => filtering_country.contains c
       | _ => false) then false
  else if positive_avg_earning &&
      (check_lt (getVal period_report "average_eps_earnings_per_share_prev_0_4_y") (.num 0) ||
       check_lt (getVal period_report "average_eps_earnings_per_share_prev_5_9_y") (.num 0))
    then false
  else
    let _cash_violation :=
      positive_cash_on_hand &&
        check_lt (getVal period_report "average_cash_on_hand_prev_0_4_y") (.num 0)
    if solid_liquidity &&
        (check_lt (getVal metrics_report "latest_current_assets_liabilities_ratio") (.num 1) ||
         check_lt (getVal metrics_report "average_current_assets_liabilities_ratio_prev_0_4_y")
           (.num 1)) then false
    else if solid_liquidity &&
        (check_lt (getVal metrics_report "latest_total_assets_liabilities_ratio") (.num 1) ||
         check_lt (getVal metrics_report "average_total_assets_liabilities_ratio_prev_0_4_y")
           (.num 1)) then false
    else if solid_liquidity &&
        (check_lt (getVal metrics_report "latest_p_bv") (.num 0) ||
         check_lt (getVal metrics_report "average_p_bv_prev_0_4_y") (.num 0)) then false
    else if (((metrics_report.filter (fun e => isNullish e.2)).length : ℚ) /
        (metrics_report.length : ℚ)) > null_data_threshold then false
    else true

/-- The identity fields skipped by `create_group_average_report` (line 674). -/
def identity_exclusions_avg : List String := ["ticker", "country", "industry"]

/-- Per-field reduction shared by the two group-report builders (lines
675-679 and 689-693): `rep[field]` on a report missing the field raises
`KeyError`, and `np.isnan` on a string (or any non-float) value raises
`TypeError`; both are caught by the source's `except` clause, giving
`None`.  Symbolic `rt` values never occur in a metrics report (its entries
are outputs of the null-propagating rational safe-ops) and are routed to
the same caught-exception branch. -/
def group_field_reduce (func : List ℚ → PyVal) (reports : List (List (String × PyVal)))
    (fld : String) : PyVal :=
  if reports.any (fun rep => (rep.lookup fld).isNone) then .none
  else
    let vals := reports.map (fun rep => getVal rep fld)
    if vals.any (fun v => match v with | .str _ => true | .rt _ _ => true | _ => false)
    then .none
    else apply_f_excl_none func vals

/-- Source `create_group_average_report` (lines 667-681): `None` on an
empty cohort; otherwise field-wise `np.average` over the first report's
fields, skipping `ticker`, `country` and `industry`. -/
def create_group_average_report (reports : List (List (String × PyVal))) :
    Option (List (String × PyVal)) :=
  match reports with
  | [] => Option.none
  | r0 :: _ =>
    some (("ticker", .str "average") ::
      ((r0.map Prod.fst).filter (fun fld => fld ∉ identity_exclusions_avg)).map
        (fun fld => (fld, group_field_reduce np_average reports fld)))

/-- Source `create_group_std_report` (lines 683-695): field-wise `np.std`
over the first report's fields, skipping only `ticker` — the string-valued
`country` and `industry` fields are reduced, raise `TypeError` inside
`np.isnan`, and are caught as `None` entries.  (On an empty cohort the
source raises `IndexError`; its only caller guards nonemptiness, and the
embedding returns `Option.none` there.) -/
def create_group_std_report (reports : List (List (String × PyVal))) :
    Option (List (String × PyVal)) :=
  match reports with
  | [] => Option.none
  | r0 :: _ =>
    some (("ticker", .str "std") ::
      ((r0.map Prod.fst).filter (fun fld => fld ≠ "ticker")).map
        (fun fld => (fld, group_field_reduce np_std reports fld)))

/-- One raw statement at ingestion time: its `years` series (numeric year
labels from the scraped JSON — year labels are numbers, never null) and the
remaining field series in dict order. -/
structure Stmt where
  years : List ℚ
  fields : List (String × List PyVal)
deriving DecidableEq, Repr

/-- One zipped row of a statement: the year label first (the sort key),
then one value per field, in field order — the tuple
`(years[i], field1[i], field2[i], ...)` built by `zip(*...)` at line 204. -/
abbrev StmtRow := ℚ × List PyVal

/-- The descending order used by `sorted(zipped, reverse=True)` at line 205,
keyed on the leading year.  Python compares the full tuples
lexicographically, which coincides with this key order whenever year labels
are pairwise distinct (ties would make Python compare field values and
raise on `None`). -/
def rowGE (a b : StmtRow) : Prop := b.1 ≤ a.1

instance : DecidableRel rowGE := fun a b => inferInstanceAs (Decidable (b.1 ≤ a.1))

instance : IsTotal StmtRow rowGE := ⟨fun a b => le_total b.1 a.1⟩

instance : IsTrans StmtRow rowGE := ⟨fun _ _ _ h1 h2 => le_trans h2 h1⟩

/-- Row `i` of a statement.  Python's `zip` truncates at the shortest
series; on year-aligned input (all series of equal length — the invariant
the spec requires of well-formed records) the `getD` defaults are never
taken and the two agree. -/
def rowAt (st : Stmt) (i : ℕ) : StmtRow :=
  (st.years.getD i 0, st.fields.map (fun c => c.2.getD i PyVal.none))

/-- `zipped = zip(*[req_field_data[field] for field in ordered_fields])`
(line 204), with `years` leading. -/
def zippedRows (st : Stmt) : List StmtRow :=
  (List.range st.years.length).map (rowAt st)

/-- Lines 203-206: sort the zipped rows by year descending (stable, as
Python's `sorted`) and redistribute each column back to its field. -/
def sortStmt (st : Stmt) : Stmt :=
  let srows := (zippedRows st).insertionSort rowGE
  { years := srows.map Prod.fst,
    fields := st.fields.enum.map
      (fun p => (p.2.1, srows.map (fun r => r.2.getD p.1 PyVal.none))) }

/-- One external input record as consumed by `add_stock_data` (the JSON
object per company, restructured as a typed record: required and optional
statements in dict order, plus the identity scalars it may carry). -/
structure StockRecord where
  statements : List (String × Stmt)
  sector : Option String
  industry : Option String
  country : Option String
  market_cap : PyVal
deriving DecidableEq, Repr

/-- The Cohort Registry state (`Picker.__init__`, lines 91-93). -/
structure PickerState where
  all_stocks_data : List (String × StockRecord)
  stocks_by_industries : List (String × List String)
  stocks_by_sectors : List (String × List String)
deriving DecidableEq, Repr

/-- `self.required_info` (line 94). -/
def required_info : List String :=
  ["cash_flow_statement", "income_statement", "balance_sheet", "price"]

/-- Source `add_ticker_to_industry` (lines 168-172): create a singleton
list for a new industry, otherwise append the ticker (unconditionally —
no duplicate check). -/
def add_ticker_to_industry (m : List (String × List String)) (industry ticker : String) :
    List (String × List String) :=
  match m.lookup industry with
  | Option.none => m ++ [(industry, [ticker])]
  | some l => assocSet industry (l ++ [ticker]) m

/-- Source `add_ticker_to_sector` (lines 174-178), same shape. -/
def add_ticker_to_sector (m : List (String × List String)) (sector ticker : String) :
    List (String × List String) :=
  match m.lookup sector with
  | Option.none => m ++ [(sector, [ticker])]
  | some l => assocSet sector (l ++ [ticker]) m

/-- The per-required-statement checks of `add_stock_data`'s loop (lines
196-201): presence, then at least 10 year points (the source's message
says "less than 5", its check is `< 10`). -/
def validate_required (stock_ticker : String) (sd : List (String × Stmt)) :
    List String → Except String Unit
  | [] => pure ()
  | req :: rest =>
    match sd.lookup req with
    | Option.none => throw (req ++ " not in " ++ stock_ticker ++ " data")
    | some st =>
      if st.years.length < 10 then throw (req ++ " has less than 5 data points")
      else validate_required stock_ticker sd rest

/-- The record as stored on success: every required statement sorted by
year descending, other entries untouched. -/
def sorted_record_of (stock_data : StockRecord) : StockRecord :=
  { stock_data with
      statements := stock_data.statements.map
        (fun e => if e.1 ∈ required_info then (e.1, sortStmt e.2) else e) }

/-- The state update of a successful `add_stock_data` (lines 203-218):
the sorted record stored under its ticker (overwriting any previous
entry), and the ticker appended to its sector and industry index lists
when those keys are present. -/
def ingest_stock_data (p : PickerState) (stock_ticker : String) (stock_data : StockRecord) :
    PickerState :=
  let sorted_record : StockRecord := sorted_record_of stock_data
  let p1 : PickerState :=
    { p with all_stocks_data := assocSet stock_ticker sorted_record p.all_stocks_data }
  let p2 : PickerState :=
    match stock_data.sector with
    | some s =>
      { p1 with stocks_by_sectors := add_ticker_to_sector p1.stocks_by_sectors s stock_ticker }
    | Option.none => p1
  match stock_data.industry with
  | some ind =>
    { p2 with
        stocks_by_industries := add_ticker_to_industry p2.stocks_by_industries ind stock_ticker }
  | Option.none => p2

/-- Source `add_stock_data` (lines 189-218).  The source validates and
sorts each required statement in place inside one loop, raising on the
first failed check (the record is then not stored), and on success stores
and indexes the record.  The source's `try/except` around the sort
re-raises as `ValueError` when Python's tuple comparison fails — only
possible for duplicate year labels — which the numeric key order of
`sortStmt` makes total instead. -/
def add_stock_data (p : PickerState) (stock_ticker : String) (stock_data : StockRecord) :
    Except String PickerState := do
  validate_required stock_ticker stock_data.statements required_info
  pure (ingest_stock_data p stock_ticker stock_data)

/-! Concrete inputs used by the claim theorems. -/

/-- A 10-year constant series of ones. -/
def onesSeries : List PyVal := List.replicate 10 (PyVal.num 1)

/-- An income statement, complete for its schema, whose eps values in the
most recent four years (the `[0:4]` window) are all null — such a record
passes ingestion (nulls are legal series values; only `years` length and
statement presence are checked). -/
def incomeDataEpsNullWindow : StmtData :=
  [("revenue", onesSeries), ("gross_profit", onesSeries), ("operating_income", onesSeries),
   ("pre_tax_income", onesSeries), ("net_income", onesSeries),
   ("total_non_operating_income_expense", onesSeries),
   ("research_and_development_expenses", onesSeries), ("shares_outstanding", onesSeries),
   ("operating_expenses", onesSeries),
   ("eps_earnings_per_share",
     [PyVal.none, PyVal.none, PyVal.none, PyVal.none] ++ List.replicate 6 (PyVal.num 1))]

/-- An income statement whose eps averages are `1` over the recent window
and `-2` over the prior window: a negative growth baseline with a positive
recent value. -/
def incomeDataNegBaseline : StmtData :=
  [("revenue", onesSeries), ("gross_profit", onesSeries), ("operating_income", onesSeries),
   ("pre_tax_income", onesSeries), ("net_income", onesSeries),
   ("total_non_operating_income_expense", onesSeries),
   ("research_and_development_expenses", onesSeries), ("shares_outstanding", onesSeries),
   ("operating_expenses", onesSeries),
   ("eps_earnings_per_share",
     List.replicate 5 (PyVal.num 1) ++ List.replicate 4 (PyVal.num (-2)) ++ [PyVal.num 1])]

/-- The eps series of the claim's scenario, index 0 most recent:
`[2.0, 1.5, 1.0, 0.5, 0.0]`. -/
def epsSeriesFromClaim : List PyVal :=
  [.num 2, .num (3 / 2), .num 1, .num (1 / 2), .num 0]

/-- The same magnitudes actually decreasing toward the present (most recent
value `0.0`, oldest `2.0`). -/
def epsSeriesDecreasing : List PyVal :=
  [.num 0, .num (1 / 2), .num 1, .num (3 / 2), .num 2]

/-- A period report carrying every trend-coefficient key the warning scan
reads (missing keys would raise `KeyError`), with the eps coefficient
computed from the decreasing series and every other coefficient null. -/
def periodRepDownEps : List (String × PyVal) :=
  ("corr_coef_eps_last_5y", flipped_linear_corrcoef epsSeriesDecreasing 5) ::
    ((trend_down_fields.filter (fun fld => fld ≠ "eps") ++ trend_up_fields).map
      (fun fld => ("corr_coef_" ++ fld ++ "_last_5y", PyVal.none)))

/-- A period report for the hard filter: positive eps averages, a negative
average cash on hand over the recent window. -/
def c6PeriodReport : List (String × PyVal) :=
  [("average_eps_earnings_per_share_prev_0_4_y", .num 1),
   ("average_eps_earnings_per_share_prev_5_9_y", .num 1),
   ("average_cash_on_hand_prev_0_4_y", .num (-5))]

/-- A metrics report that violates no other hard-filter rule: large market
cap, non-excluded country, solid liquidity ratios, positive book value,
no null fields. -/
def c6MetricsReport : List (String × PyVal) :=
  [("ticker", .str "ACME"), ("market_cap", .num 200), ("country", .str "united_states"),
   ("latest_current_assets_liabilities_ratio", .num 2),
   ("average_current_assets_liabilities_ratio_prev_0_4_y", .num 2),
   ("latest_total_assets_liabilities_ratio", .num 2),
   ("average_total_assets_liabilities_ratio_prev_0_4_y", .num 2),
   ("latest_p_bv", .num 1), ("average_p_bv_prev_0_4_y", .num 1)]

/-- A three-company cohort of metrics reports whose one numeric field `m`
holds `a`, `b` and null. -/
def cohortThree (a b : ℚ) : List (List (String × PyVal)) :=
  [[("ticker", .str "A"), ("country", .str "united_states"),
    ("industry", .str "software"), ("m", .num a)],
   [("ticker", .str "B"), ("country", .str "united_states"),
    ("industry", .str "software"), ("m", .num b)],
   [("ticker", .str "C"), ("country", .str "united_states"),
    ("industry", .str "software"), ("m", PyVal.none)]]

/-- Ten ascending years. -/
def tinyYears : List ℚ :=
  [2015, 2016, 2017, 2018, 2019, 2020, 2021, 2022, 2023, 2024]

/-- The one field series of `tinyStmt`, distinct per year. -/
def tinyField : List PyVal :=
  [.num 0, .num 1, .num 2, .num 3, .num 4, .num 5, .num 6, .num 7, .num 8, .num 9]

/-- A minimal well-formed statement: ten ascending years, one aligned field. -/
def tinyStmt : Stmt := { years := tinyYears, fields := [("f", tinyField)] }

/-- A minimal well-formed input record: the four required statements,
sector and industry present. -/
def tinyRecord : StockRecord :=
  { statements :=
      [("cash_flow_statement", tinyStmt), ("income_statement", tinyStmt),
       ("balance_sheet", tinyStmt), ("price", tinyStmt)],
    sector := some "technology", industry := some "software",
    country := some "united_states", market_cap := .num 200 }

/-- The empty Cohort Registry. -/
def emptyPicker : PickerState := { all_stocks_data := [], stocks_by_industries := [], stocks_by_sectors := [] }

/-- The registry after ingesting `tinyRecord` once. -/
def pickerOnce : PickerState := ingest_stock_data emptyPicker "AAA" tinyRecord

/-- The registry after ingesting `tinyRecord` twice under the same ticker. -/
def pickerTwice : PickerState := ingest_stock_data pickerOnce "AAA" tinyRecord

/-! ## Helper lemmas -/

theorem pyDivRaw_ne_none (a b : PyVal) : pyDivRaw a b ≠ PyVal.none := by
  cases a <;> cases b <;> simp [pyDivRaw] <;> split <;> simp

/-! ## Claim theorems -/

/-- C2: for all nullable rational operands `a` and `b`, the source's `div`
returns null exactly when `a` is null, `b` is null, `b = 0`, or both
`a < 0` and `b < 0`, and in every other case returns `a / b`: `div` agrees
pointwise with `safe_div_spec`, the direct transcription of the claim. -/
theorem c2_div_agrees_with_safe_div_spec (a b : Option ℚ) :
    div (toPyVal a) (toPyVal b) = toPyVal (safe_div_spec a b) := by
  cases a <;> cases b <;> simp [div, toPyVal, safe_div_spec]
  split <;> simp

/-- C4 counterexample: for the field series `[1, 2, 3, 4, 100]` (no schema
entry), the emitted default aggregate is the mean of the four most recent
values, `5/2`, which differs from the mean over the most recent five
years, `22` — refuting "mean ... among the series' most recent 5 years". -/
theorem c4_default_window_counterexample :
    create_report_by_period
        [("f", [PyVal.num 1, PyVal.num 2, PyVal.num 3, PyVal.num 4, PyVal.num 100])]
        [("f", Option.none)]
      = [("average_f_prev_0_4_y", PyVal.num (5 / 2))] ∧
    (5 : ℚ) / 2 ≠ (1 + 2 + 3 + 4 + 100) / 5 := by
  refine ⟨?_, by norm_num⟩
  simp [create_report_by_period, default_period, default_function, report_field_name,
    Reducer.pyName, Reducer.run, seriesOf, pySlice, apply_f_excl_none, pyExclNoneNan,
    np_average, listMean]
  norm_num
  decide

/-- C4 amended: every schema field without an explicit entry emits exactly
one aggregate, keyed `average_{field}_prev_0_4_y`, whose value is the mean
of the non-null values among the series' most recent FOUR years (the
Python slice `[0:4]`). -/
theorem c4_default_schema_one_mean_over_four_years
    (data : StmtData) (pre post : Schema) (fld : String) :
    create_report_by_period data (pre ++ (fld, Option.none) :: post) =
      create_report_by_period data pre ++
        (report_field_name fld Reducer.average (0, 4),
          apply_f_excl_none np_average ((seriesOf data fld).take 4)) ::
        create_report_by_period data post := by
  simp [create_report_by_period, default_period, default_function, pySlice, Reducer.run]

/-- C10 counterexample: on an input whose filtered series is empty the
source returns the float `nan`, not null — `np.average` and `np.std` of an
empty array are `nan`, `nan == 0` is false, and `nan / nan` is `nan` —
refuting "returns null whenever the filtered series is empty". -/
theorem c10_coef_var_empty_counterexample :
    coef_var [PyVal.none, PyVal.nan] = PyVal.nan ∧ PyVal.nan ≠ PyVal.none := by
  constructor
  · rfl
  · decide

/-- C10 amended: `coef_var` excludes null and `nan` entries; it returns
`nan` (not null) when the filtered series is empty; it returns null exactly
when the filtered series is nonempty with average exactly zero; otherwise
it returns the standard deviation divided by the average (`1/3` on the
series `[2, null, 4]`: std `1`, mean `3`). -/
theorem c10_coef_var_amended :
    (∀ arr : List PyVal, coef_var arr = PyVal.none ↔
      (pyExclNoneNan arr ≠ [] ∧ listMean (pyExclNoneNan arr) = 0)) ∧
    (∀ arr : List PyVal, pyExclNoneNan arr = [] → coef_var arr = PyVal.nan) ∧
    coef_var [PyVal.num 2, PyVal.none, PyVal.num 4] = PyVal.num (1 / 3) ∧
    coef_var [PyVal.num 2, PyVal.num (-2)] = PyVal.none := by
  refine ⟨?_, ?_, ?_, ?_⟩
  · intro arr
    unfold coef_var
    rcases h : pyExclNoneNan arr with _ | ⟨x, xs⟩
    · simp [np_average, np_std, pyDivRaw]
    · simp only [np_average, List.cons_ne_nil, if_false, ite_false, reduceCtorEq]
      constructor
      · intro hval
        by_cases hm : PyVal.num (listMean (x :: xs)) = PyVal.num 0
        · simp only [PyVal.num.injEq] at hm
          exact ⟨by simp, hm⟩
        · rw [if_neg hm] at hval
          exact absurd hval (pyDivRaw_ne_none _ _)
      · rintro ⟨-, hmean⟩
        rw [if_pos (by rw [hmean])]
  · intro arr h
    unfold coef_var
    rw [h]
    rfl
  · have h : pyExclNoneNan [PyVal.num 2, PyVal.none, PyVal.num 4] = [2, 4] := rfl
    unfold coef_var
    rw [h]
    simp [np_average, np_std, listMean, listVariance, sqrtF, ratSqrtExact, pyDivRaw]
    norm_num
  · have hm : np_average (pyExclNoneNan [PyVal.num 2, PyVal.num (-2)]) = PyVal.num 0 := by
      simp [np_average, pyExclNoneNan]
      norm_num [listMean]
    simp only [coef_var, hm]
    simp

/-- C10 amended witness: the amended theorem applied at the concrete input
`[None]`, whose filtered series is empty. -/
theorem c10_coef_var_amended_witness : coef_var [PyVal.none] = PyVal.nan :=
  c10_coef_var_amended.2.1 [PyVal.none] rfl

/-- C3 counterexample: for the eps series `[2.0, 1.5, 1.0, 0.5, 0.0]` with
index 0 most recent, the series grows toward the present (its chronological
order is `0.0, 0.5, 1.0, 1.5, 2.0`), so the flipped correlation with the
time index is `+1.0`, not `-1.0` as claimed. -/
theorem c3_eps_trend_counterexample :
    flipped_linear_corrcoef epsSeriesFromClaim 5 = PyVal.num 1 ∧
    PyVal.num 1 ≠ PyVal.num (-1) := by
  have h25 : Nat.sqrt 25 = 5 := Nat.sqrt_eq 5
  have h1 : flipped_linear_corrcoef epsSeriesFromClaim 5 =
      corrcoefVal [0, 1 / 2, 1, 3 / 2, 2] ((List.range 5).map (fun i => (i : ℚ))) := rfl
  have hrange : (List.range 5).map (fun i => (i : ℚ)) = [0, 1, 2, 3, 4] := by
    simp [List.range_succ]
  have h2 : pearsonSums [0, 1 / 2, 1, 3 / 2, 2] [0, 1, 2, 3, 4] = (5, 5 / 2, 10) := by
    simp [pearsonSums, listMean]
    norm_num
  constructor
  · rw [h1, hrange]
    simp only [corrcoefVal, h2]
    norm_num [ratSqrtExact]
    rw [show Int.toNat 25 = 25 from rfl, h25]
    norm_num
  · decide

/-- C3 amended: for the eps series `[0.0, 0.5, 1.0, 1.5, 2.0]` (index 0
most recent — i.e. eps actually declining from 2.0 to 0.0 toward the
present), `corr_coef_eps_last_5y` is exactly `-1.0`, and the warning
annotation appends "strong downward trend of eps in last 5yrs" to the
metrics report's `warnings` field. -/
theorem c3_eps_trend_amended :
    flipped_linear_corrcoef epsSeriesDecreasing 5 = PyVal.num (-1) ∧
    (add_warnings_to_metrics_rep periodRepDownEps
        [("ticker", PyVal.str "ACME")]).lookup "warnings"
      = some (PyVal.str "strong downward trend of eps in last 5yrs") := by
  have h25 : Nat.sqrt 25 = 5 := Nat.sqrt_eq 5
  have h1 : flipped_linear_corrcoef epsSeriesDecreasing 5 =
      corrcoefVal [2, 3 / 2, 1, 1 / 2, 0] ((List.range 5).map (fun i => (i : ℚ))) := rfl
  have hrange : (List.range 5).map (fun i => (i : ℚ)) = [0, 1, 2, 3, 4] := by
    simp [List.range_succ]
  have h2 : pearsonSums [2, 3 / 2, 1, 1 / 2, 0] [0, 1, 2, 3, 4] = (-5, 5 / 2, 10) := by
    simp [pearsonSums, listMean]
    norm_num
  have hv : flipped_linear_corrcoef epsSeriesDecreasing 5 = PyVal.num (-1) := by
    rw [h1, hrange]
    simp only [corrcoefVal, h2]
    norm_num [ratSqrtExact]
    rw [show Int.toNat 25 = 25 from rfl, h25]
    norm_num
  have hple : pyLeVal (PyVal.num (-1)) (PyVal.num (-(71 / 100))) = true := by
    simp [pyLeVal, PyVal.toRtRep, leRt]
    norm_num
  refine ⟨hv, ?_⟩
  have e1 : "corr_coef_" ++ "revenue" ++ "_last_5y" = "corr_coef_revenue_last_5y" := rfl
  have e2 : "corr_coef_" ++ "eps" ++ "_last_5y" = "corr_coef_eps_last_5y" := rfl
  have e3 : "corr_coef_" ++ "current_assets_liabilities" ++ "_last_5y" = "corr_coef_current_assets_liabilities_last_5y" := rfl
  have e4 : "corr_coef_" ++ "total_assets_liabilities" ++ "_last_5y" = "corr_coef_total_assets_liabilities_last_5y" := rfl
  have e5 : "corr_coef_" ++ "solvency_ratio" ++ "_last_5y" = "corr_coef_solvency_ratio_last_5y" := rfl
  have e6 : "corr_coef_" ++ "net_income_margin" ++ "_last_5y" = "corr_coef_net_income_margin_last_5y" := rfl
  have e7 : "corr_coef_" ++ "gross_profit_margin" ++ "_last_5y" = "corr_coef_gross_profit_margin_last_5y" := rfl
  have e8 : "corr_coef_" ++ "pre_tax_net_income_margin" ++ "_last_5y" = "corr_coef_pre_tax_net_income_margin_last_5y" := rfl
  have e9 : "corr_coef_" ++ "cash_flow_margin" ++ "_last_5y" = "corr_coef_cash_flow_margin_last_5y" := rfl
  have e10 : "corr_coef_" ++ "ROA" ++ "_last_5y" = "corr_coef_ROA_last_5y" := rfl
  have e11 : "corr_coef_" ++ "ROE" ++ "_last_5y" = "corr_coef_ROE_last_5y" := rfl
  have e12 : "corr_coef_" ++ "ROEC" ++ "_last_5y" = "corr_coef_ROEC_last_5y" := rfl
  have e13 : "corr_coef_" ++ "op_expenses_margin" ++ "_last_5y" = "corr_coef_op_expenses_margin_last_5y" := rfl
  have e14 : "corr_coef_" ++ "shares_outstanding" ++ "_last_5y" = "corr_coef_shares_outstanding_last_5y" := rfl
  have e15 : "corr_coef_" ++ "debt_issuance" ++ "_last_5y" = "corr_coef_debt_issuance_last_5y" := rfl
  have e16 : "corr_coef_" ++ "equity_issued" ++ "_last_5y" = "corr_coef_equity_issued_last_5y" := rfl
  simp [add_warnings_to_metrics_rep, periodRepDownEps, trend_down_fields, trend_up_fields,
    getVal, assocSet, hv, hple, check_lte, PyVal.isnan, List.filter_cons, List.filter_nil,
    List.lookup,
    e1, e2, e3, e4, e5, e6, e7, e8, e9, e10, e11, e12, e13, e14, e15, e16]
  decide

/-- C1 refutation (code bug): for a company record whose income statement
passed ingestion but has a null eps value in each of the four most recent
years, the eps window average `average_eps_earnings_per_share_prev_0_4_y`
is `None`, and `generate_income_statement_reports` — hence
`generate_period_and_metrics_report`, which calls it — raises `TypeError`
at the raw comparison `period_rep[...] < 0` of line 285 instead of
propagating the null. -/
theorem c1_income_reports_raise_on_null_eps_window :
    getVal (create_report_by_period incomeDataEpsNullWindow income_statement_schema)
        "average_eps_earnings_per_share_prev_0_4_y" = PyVal.none ∧
    generate_income_statement_reports incomeDataEpsNullWindow =
      Except.error "TypeError: unsupported comparison of NoneType and int" := by
  constructor
  · rfl
  · rfl

/-- C7 counterexample: for an income statement whose recent-window average
eps is `1` and whose prior-window (baseline) average eps is `-2` — a
negative baseline — the naive rate `(1 - (-2)) / (-2) = -3/2` is NOT
negated: the source's guard tests the recent window's sign, not the
baseline's, so the claim's predicted value `3/2` is wrong. -/
theorem c7_sign_flip_counterexample :
    (generate_income_statement_reports incomeDataNegBaseline).map
        (fun r => r.2.lookup "eps_growth_prev_0_4_vs_5_9_y")
      = Except.ok (some (PyVal.num (-(3 / 2)))) ∧
    PyVal.num (-(3 / 2)) ≠ PyVal.num (3 / 2) := by
  have h04 : getVal (create_report_by_period incomeDataNegBaseline income_statement_schema)
      "average_eps_earnings_per_share_prev_0_4_y" = PyVal.num 1 := by
    show apply_f_excl_none Reducer.average.run
        (pySlice (seriesOf incomeDataNegBaseline "eps_earnings_per_share") 0 4) = PyVal.num 1
    rw [show pySlice (seriesOf incomeDataNegBaseline "eps_earnings_per_share") 0 4 =
      [PyVal.num 1, PyVal.num 1, PyVal.num 1, PyVal.num 1] from rfl]
    simp [apply_f_excl_none, pyExclNoneNan, Reducer.run, np_average, listMean]
    norm_num
  have h59 : getVal (create_report_by_period incomeDataNegBaseline income_statement_schema)
      "average_eps_earnings_per_share_prev_5_9_y" = PyVal.num (-2) := by
    show apply_f_excl_none Reducer.average.run
        (pySlice (seriesOf incomeDataNegBaseline "eps_earnings_per_share") 5 9) = PyVal.num (-2)
    rw [show pySlice (seriesOf incomeDataNegBaseline "eps_earnings_per_share") 5 9 =
      [PyVal.num (-2), PyVal.num (-2), PyVal.num (-2), PyVal.num (-2)] from rfl]
    simp [apply_f_excl_none, pyExclNoneNan, Reducer.run, np_average, listMean]
    norm_num
  have h1014 : getVal (create_report_by_period incomeDataNegBaseline income_statement_schema)
      "average_eps_earnings_per_share_prev_10_14_y" = PyVal.none := rfl
  have hg1 : eps_growth_0_4_vs_5_9 (PyVal.num 1) (PyVal.num (-2)) =
      Except.ok (PyVal.num (-(3 / 2))) := by
    simp [eps_growth_0_4_vs_5_9, pyLtZero, change_rate]
    norm_num
    rfl
  have hg2 : eps_growth_0_4_vs_10_14 (PyVal.num 1) (PyVal.num (-2)) PyVal.none =
      Except.ok PyVal.none := by
    simp [eps_growth_0_4_vs_10_14, pyLtZero, change_rate]
    rfl
  constructor
  · simp only [generate_income_statement_reports, h04, h59, h1014, hg1, hg2]
    simp [List.lookup, Except.bind, Except.map, Bind.bind, pure, Except.pure]
  · simp
    norm_num

/-- C7 amended: the sign-flip correction negates the naive change rate
exactly when the RECENT window (`prev_0_4`) average eps is negative (and
the 5-9 average is truthy, i.e. neither null nor zero), not when the
baseline is negative; and it applies only to the 0-4-vs-5-9 growth field —
the 0-4-vs-10-14 field's corrective branch is a self-assignment that never
negates. -/
theorem c7_sign_flip_amended :
    (∀ a b : ℚ, a < 0 → b ≠ 0 →
      eps_growth_0_4_vs_5_9 (PyVal.num a) (PyVal.num b) =
        Except.ok (PyVal.num (-((a - b) / b)))) ∧
    (∀ a b : ℚ, 0 ≤ a →
      eps_growth_0_4_vs_5_9 (PyVal.num a) (PyVal.num b) =
        Except.ok (change_rate (PyVal.num a) (PyVal.num b))) ∧
    (∀ (a : ℚ) (b c : PyVal),
      eps_growth_0_4_vs_10_14 (PyVal.num a) b c =
        Except.ok (change_rate (PyVal.num a) c)) := by
  refine ⟨?_, ?_, ?_⟩
  · intro a b ha hb
    simp [eps_growth_0_4_vs_5_9, pyLtZero, change_rate, PyVal.truthy, ha, hb, pyNeg]
    rfl
  · intro a b ha
    simp [eps_growth_0_4_vs_5_9, pyLtZero, not_lt.mpr ha]
    rfl
  · intro a b c
    simp [eps_growth_0_4_vs_10_14, pyLtZero]
    rfl

/-- C7 amended witness: recent average `-1` (negative), baseline `2`: the
naive rate `(-1 - 2) / 2` is negated. -/
theorem c7_sign_flip_amended_witness :
    eps_growth_0_4_vs_5_9 (PyVal.num (-1)) (PyVal.num 2) =
      Except.ok (PyVal.num (-((-1 - 2) / 2))) :=
  c7_sign_flip_amended.1 (-1) 2 (by norm_num) (by norm_num)

/-- C6 refutation (code bug): a company whose recent-window average cash on
hand is negative (here `-5`) and which violates no other rule is NOT
rejected: with the positive-cash-on-hand toggle enabled and all defaults,
`default_filter` returns `True`, because the branch at lines 576-578 logs
the violation but is missing its `return False`.  The first conjunct shows
the violation the branch detects does hold. -/
theorem c6_negative_cash_not_rejected :
    check_lt (getVal c6PeriodReport "average_cash_on_hand_prev_0_4_y") (PyVal.num 0) = true ∧
    default_filter c6PeriodReport c6MetricsReport default_market_cap_floor
      default_filtering_country true true true default_null_data_threshold = true := by
  constructor
  · simp [c6PeriodReport, getVal, check_lt, PyVal.isnan, pyLtVal, PyVal.toRtRep, ltRt,
      List.lookup]
  · simp [default_filter, c6PeriodReport, c6MetricsReport, default_market_cap_floor,
      default_filtering_country, default_null_data_threshold, getVal, check_lt, PyVal.isnan,
      pyLtVal, PyVal.toRtRep, ltRt, isNullish, List.lookup, List.filter_cons, List.filter_nil]
    norm_num

/-- C8 counterexample: on a three-company cohort the standard-deviation
report does NOT exclude the identity field `country`: it contains a
`country` entry (whose value is `None` because `np.isnan` raises on the
string values and the exception is caught) — while the average report does
exclude it.  This refutes "each computed ... excluding the identity fields
ticker, country, and industry". -/
theorem c8_std_report_includes_country_counterexample :
    (create_group_std_report (cohortThree 10 20)).bind (fun rep => rep.lookup "country")
      = some PyVal.none ∧
    (create_group_average_report (cohortThree 10 20)).bind (fun rep => rep.lookup "country")
      = Option.none := by
  constructor
  · rfl
  · rfl

/-- C8 amended: over the cohort's metrics reports, the average report is
computed field-wise excluding `ticker`, `country` and `industry`, and the
std report field-wise excluding only `ticker` (emitting null for the
string-valued `country` and `industry`, whose reduction raises and is
caught); null values are excluded from each reduction — for field values
`[a, b, null]` the average is `(a+b)/2` and the std is `np.std([a, b])`
(`5` for values `[10, 20, null]`); a field whose value is null in every
report yields a null statistic. -/
theorem c8_group_stats_amended :
    (∀ a b : ℚ, create_group_average_report (cohortThree a b) =
      some [("ticker", PyVal.str "average"), ("m", PyVal.num ((a + b) / 2))]) ∧
    (∀ a b : ℚ, create_group_std_report (cohortThree a b) =
      some [("ticker", PyVal.str "std"), ("country", PyVal.none), ("industry", PyVal.none),
        ("m", np_std [a, b])]) ∧
    create_group_std_report (cohortThree 10 20) =
      some [("ticker", PyVal.str "std"), ("country", PyVal.none), ("industry", PyVal.none),
        ("m", PyVal.num 5)] ∧
    (∀ (reports : List (List (String × PyVal))) (fld : String) (f : List ℚ → PyVal),
      (∀ rep ∈ reports, rep.lookup fld = some PyVal.none) →
      group_field_reduce f reports fld = PyVal.none) := by
  have havg : ∀ a b : ℚ, create_group_average_report (cohortThree a b) =
      some [("ticker", PyVal.str "average"), ("m", PyVal.num ((a + b) / 2))] := by
    intro a b
    simp [create_group_average_report, cohortThree, identity_exclusions_avg,
      group_field_reduce, getVal, List.lookup, List.filter_cons, List.filter_nil,
      apply_f_excl_none, pyExclNoneNan, np_average, listMean]
  have hstd : ∀ a b : ℚ, create_group_std_report (cohortThree a b) =
      some [("ticker", PyVal.str "std"), ("country", PyVal.none), ("industry", PyVal.none),
        ("m", np_std [a, b])] := by
    intro a b
    simp [create_group_std_report, cohortThree, group_field_reduce, getVal, List.lookup,
      List.filter_cons, List.filter_nil, apply_f_excl_none, pyExclNoneNan]
  refine ⟨havg, hstd, ?_, ?_⟩
  · rw [hstd 10 20]
    have h25 : Nat.sqrt 25 = 5 := Nat.sqrt_eq 5
    have hvar : listVariance [10, 20] = 25 := by
      simp [listVariance, listMean]
      norm_num
    have hns : np_std [10, 20] = PyVal.num 5 := by
      rw [np_std, if_neg (by simp), hvar]
      norm_num [sqrtF, ratSqrtExact]
      rw [show Int.toNat 25 = 25 from rfl, h25]
      norm_num
    rw [hns]
  · intro reports fld f h
    have hany : (reports.any (fun rep => (rep.lookup fld).isNone)) = false := by
      rw [List.any_eq_false]
      intro rep hrep
      simp [h rep hrep]
    have hvals : reports.map (fun rep => getVal rep fld) =
        reports.map (fun _ => PyVal.none) := by
      apply List.map_congr_left
      intro rep hrep
      simp [getVal, h rep hrep]
    simp [group_field_reduce, hany, hvals, apply_f_excl_none, pyExclNoneNan,
      List.any_map, List.filterMap_map]

/-- C8 amended witness: the all-null clause applied to a one-company cohort
whose field `x` is null. -/
theorem c8_group_stats_amended_witness :
    group_field_reduce np_average [[("x", PyVal.none)]] "x" = PyVal.none :=
  c8_group_stats_amended.2.2.2 [[("x", PyVal.none)]] "x" np_average (by decide)

theorem lookup_assocSet_self (k : String) (v : α) (m : List (String × α)) :
    (assocSet k v m).lookup k = some v := by
  induction m with
  | nil => simp [assocSet, List.lookup]
  | cons e rest ih =>
    by_cases h : e.1 = k
    · simp [assocSet, h, List.lookup]
    · simp [assocSet, h, List.lookup, ih,
        show (k == e.1) = false from beq_eq_false_iff_ne.mpr (Ne.symm h)]

theorem assocSet_idem (k : String) (v : α) (m : List (String × α)) :
    assocSet k v (assocSet k v m) = assocSet k v m := by
  induction m with
  | nil => simp [assocSet]
  | cons e rest ih =>
    by_cases h : e.1 = k
    · simp [assocSet, h]
    · simp [assocSet, h, ih]

theorem lookup_append_single_of_none {α} (m : List (String × α)) (k : String) (v : α)
    (h : m.lookup k = Option.none) : (m ++ [(k, v)]).lookup k = some v := by
  induction m with
  | nil => simp [List.lookup]
  | cons e rest ih =>
    by_cases he : e.1 = k
    · simp [List.lookup, he] at h
    · simp only [List.cons_append, List.lookup] at h ⊢
      rw [show (k == e.1) = false from beq_eq_false_iff_ne.mpr (Ne.symm he)] at h ⊢
      exact ih h

theorem lookup_add_ticker_to_sector (m : List (String × List String)) (s tk : String) :
    (add_ticker_to_sector m s tk).lookup s = some (((m.lookup s).getD []) ++ [tk]) := by
  unfold add_ticker_to_sector
  cases h : m.lookup s with
  | none => simpa using lookup_append_single_of_none m s [tk] h
  | some l => simp [lookup_assocSet_self]

theorem lookup_add_ticker_to_industry (m : List (String × List String)) (s tk : String) :
    (add_ticker_to_industry m s tk).lookup s = some (((m.lookup s).getD []) ++ [tk]) := by
  unfold add_ticker_to_industry
  cases h : m.lookup s with
  | none => simpa using lookup_append_single_of_none m s [tk] h
  | some l => simp [lookup_assocSet_self]

theorem add_stock_data_ok {p : PickerState} {tk : String} {d : StockRecord}
    {p' : PickerState} (h : add_stock_data p tk d = Except.ok p') :
    p' = ingest_stock_data p tk d := by
  unfold add_stock_data at h
  cases hv : validate_required tk d.statements required_info with
  | error e => rw [hv] at h; simp [Bind.bind, Except.bind] at h
  | ok u =>
    rw [hv] at h
    simp only [Bind.bind, Except.bind, pure, Except.pure, Except.ok.injEq] at h
    exact h.symm

theorem ingest_all_stocks_data (p : PickerState) (tk : String) (d : StockRecord) :
    (ingest_stock_data p tk d).all_stocks_data =
      assocSet tk (sorted_record_of d) p.all_stocks_data := by
  cases hs : d.sector <;> cases hi : d.industry <;> simp [ingest_stock_data, hs, hi]

theorem ingest_sectors (p : PickerState) (tk : String) (d : StockRecord) :
    (ingest_stock_data p tk d).stocks_by_sectors =
      (match d.sector with
       | some s => add_ticker_to_sector p.stocks_by_sectors s tk
       | Option.none => p.stocks_by_sectors) := by
  cases hs : d.sector <;> cases hi : d.industry <;> simp [ingest_stock_data, hs, hi]

theorem ingest_industries (p : PickerState) (tk : String) (d : StockRecord) :
    (ingest_stock_data p tk d).stocks_by_industries =
      (match d.industry with
       | some s => add_ticker_to_industry p.stocks_by_industries s tk
       | Option.none => p.stocks_by_industries) := by
  cases hs : d.sector <;> cases hi : d.industry <;> simp [ingest_stock_data, hs, hi]

/-- C5 counterexample: ingesting the same well-formed record twice under
ticker `AAA` leaves the sector index as `["AAA", "AAA"]` — the ticker is
duplicated, not overwritten, because `add_ticker_to_sector` appends
unconditionally — refuting "the entire state ... identical to adding it
once — appearing exactly once in every index". -/
theorem c5_double_add_duplicates_index_counterexample :
    ((add_stock_data emptyPicker "AAA" tinyRecord).bind
        (fun p1 => add_stock_data p1 "AAA" tinyRecord)).map
        (fun p => p.stocks_by_sectors)
      = Except.ok [("technology", ["AAA", "AAA"])] ∧
    (add_stock_data emptyPicker "AAA" tinyRecord).map (fun p => p.stocks_by_sectors)
      = Except.ok [("technology", ["AAA"])] ∧
    [("technology", ["AAA", "AAA"])] ≠ [("technology", ["AAA"])] := by
  refine ⟨rfl, rfl, by decide⟩

/-- C5 amended: re-adding the same record under the same ticker leaves the
ticker-to-data map identical (the entry is overwritten with the same
value), but appends the ticker to its sector and industry index lists
again — the ticker then appears twice in each index, not once. -/
theorem c5_double_add_amended (p : PickerState) (tk : String) (d : StockRecord)
    (p1 p2 : PickerState)
    (h1 : add_stock_data p tk d = Except.ok p1)
    (h2 : add_stock_data p1 tk d = Except.ok p2) :
    p2.all_stocks_data = p1.all_stocks_data ∧
    (∀ s, d.sector = some s → ∃ l, p1.stocks_by_sectors.lookup s = some l ∧ tk ∈ l ∧
      p2.stocks_by_sectors.lookup s = some (l ++ [tk])) ∧
    (∀ nm, d.industry = some nm → ∃ l, p1.stocks_by_industries.lookup nm = some l ∧ tk ∈ l ∧
      p2.stocks_by_industries.lookup nm = some (l ++ [tk])) := by
  have e1 := add_stock_data_ok h1
  have e2 := add_stock_data_ok h2
  subst e1
  subst e2
  refine ⟨?_, ?_, ?_⟩
  · rw [ingest_all_stocks_data, ingest_all_stocks_data, assocSet_idem]
  · intro s hs
    refine ⟨((p.stocks_by_sectors.lookup s).getD []) ++ [tk], ?_, ?_, ?_⟩
    · rw [ingest_sectors, hs]
      exact lookup_add_ticker_to_sector _ _ _
    · exact List.mem_append_right _ (List.mem_singleton.mpr rfl)
    · rw [ingest_sectors (ingest_stock_data p tk d) tk d, hs]
      rw [lookup_add_ticker_to_sector, ingest_sectors, hs, lookup_add_ticker_to_sector]
      rfl
  · intro nm hnm
    refine ⟨((p.stocks_by_industries.lookup nm).getD []) ++ [tk], ?_, ?_, ?_⟩
    · rw [ingest_industries, hnm]
      exact lookup_add_ticker_to_industry _ _ _
    · exact List.mem_append_right _ (List.mem_singleton.mpr rfl)
    · rw [ingest_industries (ingest_stock_data p tk d) tk d, hnm]
      rw [lookup_add_ticker_to_industry, ingest_industries, hnm, lookup_add_ticker_to_industry]
      rfl

/-- C5 amended witness: the amended theorem at the concrete double
ingestion of `tinyRecord`: the data maps agree. -/
theorem c5_double_add_amended_witness :
    pickerTwice.all_stocks_data = pickerOnce.all_stocks_data :=
  (c5_double_add_amended emptyPicker "AAA" tinyRecord pickerOnce pickerTwice rfl rfl).1

theorem sortStmt_years_sorted (st : Stmt) :
    List.Sorted (fun a b : ℚ => b ≤ a) (sortStmt st).years := by
  have h : List.Sorted rowGE ((zippedRows st).insertionSort rowGE) :=
    List.sorted_insertionSort rowGE (zippedRows st)
  exact List.Pairwise.map Prod.fst (fun a b hab => hab) h

theorem sorted_desc_head_max {ys : List ℚ}
    (h : List.Sorted (fun a b : ℚ => b ≤ a) ys) : ∀ y ∈ ys, y ≤ ys.headD y := by
  intro y hy
  cases ys with
  | nil => simp at hy
  | cons a l =>
    rcases List.mem_cons.mp hy with rfl | hmem
    · simp
    · simpa using List.rel_of_sorted_cons h y hmem

theorem range_map_getD_zip (xs : List ℚ) (ys : List PyVal) (h : ys.length = xs.length) :
    (List.range xs.length).map (fun i => (xs.getD i 0, ys.getD i PyVal.none)) = xs.zip ys := by
  induction xs generalizing ys with
  | nil => simp
  | cons x xs ih =>
    cases ys with
    | nil => simp at h
    | cons y ys =>
      rw [List.length_cons, List.range_succ_eq_map, List.map_cons, List.map_map]
      simp only [List.getD_cons_zero, List.getD_cons_succ, Function.comp, List.zip_cons_cons]
      congr 1
      exact ih ys (by simpa using h)

theorem sortStmt_fields_getElem (st : Stmt) (j : ℕ) (nm : String) (col : List PyVal)
    (hj : st.fields[j]? = some (nm, col)) :
    (sortStmt st).fields[j]? =
      some (nm, ((zippedRows st).insertionSort rowGE).map
        (fun r => r.2.getD j PyVal.none)) := by
  simp only [sortStmt]
  rw [List.getElem?_map, List.getElem?_enum, hj]
  rfl

theorem rowAt_proj (st : Stmt) (j : ℕ) (nm : String) (col : List PyVal)
    (hj : st.fields[j]? = some (nm, col)) (i : ℕ) :
    (rowAt st i).2.getD j PyVal.none = col.getD i PyVal.none := by
  simp only [rowAt]
  rw [List.getD_eq_getElem?_getD, List.getElem?_map, hj]
  rfl

theorem sortStmt_alignment (st : Stmt) (j : ℕ) (nm : String) (col : List PyVal)
    (hj : st.fields[j]? = some (nm, col)) (hlen : col.length = st.years.length) :
    ∃ col2, (sortStmt st).fields[j]? = some (nm, col2) ∧
      List.Perm ((sortStmt st).years.zip col2) (st.years.zip col) := by
  refine ⟨_, sortStmt_fields_getElem st j nm col hj, ?_⟩
  have hy : (sortStmt st).years = ((zippedRows st).insertionSort rowGE).map Prod.fst := rfl
  rw [hy, List.zip_map']
  have h1 : List.Perm
      (((zippedRows st).insertionSort rowGE).map (fun r => (r.1, r.2.getD j PyVal.none)))
      ((zippedRows st).map (fun r => (r.1, r.2.getD j PyVal.none))) :=
    (List.perm_insertionSort rowGE (zippedRows st)).map _
  have h2 : (zippedRows st).map (fun r => (r.1, r.2.getD j PyVal.none)) =
      st.years.zip col := by
    simp only [zippedRows, List.map_map]
    calc (List.range st.years.length).map
          ((fun r : StmtRow => (r.1, r.2.getD j PyVal.none)) ∘ rowAt st)
        = (List.range st.years.length).map
            (fun i => (st.years.getD i 0, col.getD i PyVal.none)) := by
          apply List.map_congr_left
          intro i _
          show ((rowAt st i).1, (rowAt st i).2.getD j PyVal.none) = _
          rw [rowAt_proj st j nm col hj i]
          rfl
      _ = st.years.zip col := range_map_getD_zip st.years col hlen
  rw [← h2]
  exact h1

theorem lookup_map_sort (req : String) (hreq : req ∈ required_info)
    (l : List (String × Stmt)) :
    (l.map (fun e => if e.1 ∈ required_info then (e.1, sortStmt e.2) else e)).lookup req
      = (l.lookup req).map sortStmt := by
  induction l with
  | nil => rfl
  | cons e rest ih =>
    by_cases h : e.1 = req
    · subst h
      rw [List.map_cons, if_pos hreq]
      simp [List.lookup]
    · have hb : (req == e.1) = false := beq_eq_false_iff_ne.mpr (Ne.symm h)
      by_cases hR : e.1 ∈ required_info
      · rw [List.map_cons, if_pos hR]
        simp [List.lookup, hb, ih]
      · rw [List.map_cons, if_neg hR]
        simp [List.lookup, hb, ih]

/-- C9: if `add_stock_data` succeeds for a ticker, then for each required
statement the stored record holds the sorted statement: its `years`
sequence is descending, `years[0]` is the maximum year value, and each
field series is aligned to the new order (the year-value pairs of the
stored series are a permutation of the input's). -/
theorem c9_ingestion_sorting_invariant (p : PickerState) (tk : String) (d : StockRecord)
    (p' : PickerState) (h : add_stock_data p tk d = Except.ok p')
    (req : String) (hreq : req ∈ required_info)
    (st0 : Stmt) (hst : d.statements.lookup req = some st0) :
    ∃ rec, p'.all_stocks_data.lookup tk = some rec ∧
      rec.statements.lookup req = some (sortStmt st0) ∧
      List.Sorted (fun a b : ℚ => b ≤ a) (sortStmt st0).years ∧
      (∀ y ∈ (sortStmt st0).years, y ≤ (sortStmt st0).years.headD y) ∧
      (∀ (j : ℕ) (nm : String) (col : List PyVal),
        st0.fields[j]? = some (nm, col) → col.length = st0.years.length →
        ∃ col2, (sortStmt st0).fields[j]? = some (nm, col2) ∧
          List.Perm ((sortStmt st0).years.zip col2) (st0.years.zip col)) := by
  have e := add_stock_data_ok h
  subst e
  refine ⟨sorted_record_of d, ?_, ?_, sortStmt_years_sorted st0,
    sorted_desc_head_max (sortStmt_years_sorted st0), ?_⟩
  · rw [ingest_all_stocks_data]
    exact lookup_assocSet_self _ _ _
  · show (d.statements.map
        (fun e => if e.1 ∈ required_info then (e.1, sortStmt e.2) else e)).lookup req
      = some (sortStmt st0)
    rw [lookup_map_sort req hreq, hst]
    rfl
  · intro j nm col hj hlen
    exact sortStmt_alignment st0 j nm col hj hlen

/-- C9 witness: applied to the concrete ingestion of `tinyRecord` and its
`price` statement: the stored years are sorted descending. -/
theorem c9_ingestion_sorting_invariant_witness :
    List.Sorted (fun a b : ℚ => b ≤ a) (sortStmt tinyStmt).years := by
  obtain ⟨rec, -, -, hsorted, -, -⟩ :=
    c9_ingestion_sorting_invariant emptyPicker "AAA" tinyRecord pickerOnce rfl
      "price" (by decide) tinyStmt rfl
  exact hsorted
